import Mathlib

/-!
Verification of the data-entry automation engine (`dea.py`).

The Python source is shallowly embedded below:
* cell values from the tabular source (`Cell`): absent/`None`, a float NaN
  marker, or any other value represented by its `str()` image;
* `coerce_truthy`, `validate_row`, `set_field` as pure functions;
* the per-row part of `main` (`processRow`) with the browser abstracted as an
  oracle `Env` (the Python `re.fullmatch` primitive is likewise abstracted as
  an oracle `fm : String → String → Bool` giving, for each pattern and
  string, whether the full-span match succeeds);
* row slicing / filtering / numbering of the run loop (`sliceRows`,
  `numberRows`);
* the outcome-log open/append logic (`runLog`).
-/

namespace Dea

/-- A raw cell value of one row.  `none` is Python `None` (also used for an
absent column, `row.get(col, None)`); `nan` is a float NaN; `str s` stands for
any other value whose Python `str()` image is `s`. -/
inductive Cell where
  | none
  | nan
  | str (s : String)
deriving DecidableEq, Repr

/-- Python `str(v)` for a cell (`str(None) = "None"`, `str(nan) = "nan"`). -/
def pyStrAll : Cell → String
  | Cell.none => "None"
  | Cell.nan => "nan"
  | Cell.str s => s

/-- `str(v)` as used by the `input` branch of `set_field`, which first
replaces `None` by the empty string. -/
def pyStrInput : Cell → String
  | Cell.none => ""
  | Cell.nan => "nan"
  | Cell.str s => s

/-- The emptiness test of `validate_row`:
`val is None or (isinstance(val, float) and pd.isna(val)) or str(val) == ""`. -/
def isEmptyish : Cell → Bool
  | Cell.none => true
  | Cell.nan => true
  | Cell.str s => s == ""

/-- Whether the cell is Python `None` (`val is None`). -/
def isNoneCell : Cell → Bool
  | Cell.none => true
  | _ => false

/-- The NaN-to-None normalisation `main` applies when building `row_dict`. -/
def denan : Cell → Cell
  | Cell.nan => Cell.none
  | c => c

/-- Python `str.lower()` (the relevant truthy tokens are ASCII, for which
`Char.toLower` agrees with Python case folding). -/
def pyLower (s : String) : String :=
  String.mk (s.data.map Char.toLower)

/-- Python `str.strip()`: remove whitespace from both ends. -/
def pyStrip (s : String) : String :=
  String.mk (((s.data.dropWhile Char.isWhitespace).reverse.dropWhile
    Char.isWhitespace).reverse)

/-- `coerce_truthy`: `str(v).strip().lower() in {"1","true","yes","y","on","t"}`. -/
def coerce_truthy (v : Cell) : Bool :=
  ["1", "true", "yes", "y", "on", "t"].contains (pyLower (pyStrip (pyStrAll v)))

/-- One validator spec dict.  The Python code dispatches on `vd.get("type")`;
any type other than `"regex"` and `"enum"` matches neither branch and is
inert, which `otherV` captures. -/
inductive Validator where
  | regexV (pattern : String) (message : Option String)
  | enumV (values : List String) (message : Option String)
  | otherV (vtype : String)
deriving DecidableEq, Repr

/-- Python `repr` of a list of strings, as produced by the f-string
`f"{col} must be one of {vd['values']}"`. -/
def pyListRepr (vals : List String) : String :=
  "[" ++ String.intercalate ", " (vals.map (fun s => "\x27" ++ s ++ "\x27")) ++ "]"

/-- Evaluation of a single validator dict on the cell `val` of column `col`,
from the body of the validator loop in `validate_row`.  `fm pat s` is the
oracle for `re.fullmatch(pat, s) is not None`.  Returns the failure message,
or `none` when the validator passes or is skipped. -/
def checkValidator (fm : String → String → Bool) (col : String) (val : Cell) :
    Validator → Option String
  | Validator.regexV pat msg =>
      if !isNoneCell val && pyStrAll val != "" then
        if fm pat (pyStrAll val) then none
        else some (msg.getD ("Invalid value for " ++ col))
      else none
  | Validator.enumV vals msg =>
      if !isNoneCell val then
        if vals.contains (pyStrAll val) then none
        else some (msg.getD (col ++ " must be one of " ++ pyListRepr vals))
      else none
  | Validator.otherV _ => none

/-- The validator loop: first failure returns immediately. -/
def checkValidators (fm : String → String → Bool) (col : String) (val : Cell) :
    List Validator → Option String
  | [] => none
  | v :: rest =>
      match checkValidator fm col val v with
      | some m => some m
      | none => checkValidators fm col val rest

/-- The `FieldRule` dataclass.  `validators` keeps the dataclass's
`Optional[list]` shape (`none` is Python `None`). -/
structure FieldRule where
  selector : String
  type : String
  required : Bool
  default : Option String
  validators : Option (List Validator)
deriving DecidableEq, Repr

/-- `FieldRule(**v)` with the dataclass defaults (`type="input"`,
`required=False`, `default=None`, `validators=None`).  The dataclass performs
no validation of the `type` value, so construction is total. -/
def fieldRuleOfConfig (sel : String) (ty : Option String) (req : Option Bool)
    (dflt : Option String) (vds : Option (List Validator)) : FieldRule :=
  ⟨sel, ty.getD "input", req.getD false, dflt, vds⟩

/-- The body of the per-field iteration of `validate_row`: the
required-and-empty check, then (when it does not return) the validator loop.
`if rule.validators:` skips a `None` or empty list, which evaluating the
loop on `getD []` reproduces exactly. -/
def fieldResult (fm : String → String → Bool) (row : String → Cell)
    (p : String × FieldRule) : Option String :=
  let col := p.1
  let rule := p.2
  let val := row col
  if isEmptyish val && rule.required && rule.default.isNone then
    some ("Missing required field: " ++ col)
  else checkValidators fm col val (rule.validators.getD [])

/-- `validate_row(row, fields)`: iterate fields in declared order, return the
first failure. -/
def validate_row (fm : String → String → Bool) (row : String → Cell) :
    List (String × FieldRule) → Option String
  | [] => none
  | f :: rest =>
      match fieldResult fm row f with
      | some m => some m
      | none => validate_row fm row rest

/-- The interaction `set_field` performs on the located element. -/
inductive FieldAction where
  | clearAndType (text : String)
  | selectByValue (value : String)
  | clickToggle
  | noClick
deriving DecidableEq, Repr

deriving instance DecidableEq for Except

/-- `set_field` after `find_element` succeeded: dispatch on `rule.type`.
`checked` is `elem.is_selected()`.  An unknown type raises
`ValueError(f"Unsupported field type: {t}")`, modelled as `Except.error`. -/
def set_field (rule : FieldRule) (checked : Bool) (value : Cell) :
    Except String FieldAction :=
  if rule.type == "input" then
    Except.ok (FieldAction.clearAndType (pyStrInput value))
  else if rule.type == "select" then
    Except.ok (FieldAction.selectByValue (pyStrAll value))
  else if rule.type == "checkbox" then
    Except.ok (if checked == coerce_truthy value then FieldAction.noClick
               else FieldAction.clickToggle)
  else Except.error ("Unsupported field type: " ++ rule.type)

/-- The checked state of the control after `set_field`'s action
(`click` on a checkbox is a toggle). -/
def nextChecked (checked : Bool) : FieldAction → Bool
  | FieldAction.clickToggle => !checked
  | _ => checked

/-- The `success_check` mapping entry.  A field is `none` when the key is
absent from the dict. -/
structure SuccessCheck where
  selector : Option String
  text_contains : Option String
deriving DecidableEq, Repr

/-- A polling wait issued through `WebDriverWait.until`. -/
inductive WaitCond where
  | visible (sel : String)
  | textPresent (sel : String) (text : String)
deriving DecidableEq, Repr

/-- Python truthiness of `cfg.get("success_check", {})`: a missing entry gives
the empty dict (falsy); a present dict is truthy iff it has a key. -/
def scTruthy : Option SuccessCheck → Bool
  | Option.none => false
  | Option.some sc => sc.selector.isSome || sc.text_contains.isSome

/-- An exception raised on the fill/submit/verify path of one row. -/
inductive PyErr where
  | timeoutExc
  | noSuchElem
  | valueErr (msg : String)
  | keyErr (key : String)
  | otherExc (msg : String)
deriving DecidableEq, Repr

/-- The message recorded for a caught per-row exception:
`TimeoutException` and `NoSuchElementException` are caught first and logged as
`f"form error: {e.__class__.__name__}"`; every other exception is logged as
`str(e)` (for `KeyError(k)`, `str` is the `repr` of the key). -/
def errMsg : PyErr → String
  | PyErr.timeoutExc => "form error: TimeoutException"
  | PyErr.noSuchElem => "form error: NoSuchElementException"
  | PyErr.valueErr m => m
  | PyErr.keyErr k => "\x27" ++ k ++ "\x27"
  | PyErr.otherExc m => m

/-- The browser oracle: which navigations fail, which selectors resolve, the
current checked state per selector, which select options exist, and which
polling waits complete within the timeout. -/
structure Env where
  navErr : Option PyErr
  findOk : String → Bool
  checked : String → Bool
  selectOk : String → String → Bool
  waitOk : WaitCond → Bool

/-- The mapping config as `main` uses it.  `fields` is an association list in
declared (insertion) order.  `submit_selector` is `none` when the key is
absent (its lookup `cfg["submit_selector"]` then raises `KeyError`). -/
structure Mapping where
  url : String
  browser : Option String
  headless : Option Bool
  submit_selector : Option String
  success_check : Option SuccessCheck
  fields : List (String × FieldRule)

/-- Value resolution in the fill loop:
`if (val is None or val == "") and rule.default is not None: val = rule.default`. -/
def resolveVal (row : String → Cell) (col : String) (dflt : Option String) : Cell :=
  let v := row col
  match dflt with
  | Option.some d => if v == Cell.none || v == Cell.str "" then Cell.str d else v
  | Option.none => v

/-- One fill-loop iteration: locate the element, then `set_field`.
`find_element` raises `NoSuchElementException` when the selector does not
resolve; `select_by_value` raises it when no option has the value. -/
def fillFieldErr (env : Env) (rule : FieldRule) (val : Cell) : Option PyErr :=
  if !env.findOk rule.selector then some PyErr.noSuchElem
  else
    match set_field rule (env.checked rule.selector) val with
    | Except.error m => some (PyErr.valueErr m)
    | Except.ok (FieldAction.selectByValue v) =>
        if env.selectOk rule.selector v then none else some PyErr.noSuchElem
    | Except.ok _ => none

/-- The fill loop over the mapped fields, stopping at the first exception. -/
def fillLoop (env : Env) (row : String → Cell) :
    List (String × FieldRule) → Option PyErr
  | [] => none
  | (col, rule) :: rest =>
      match fillFieldErr env rule (resolveVal row col rule.default) with
      | some e => some e
      | none => fillLoop env row rest

/-- The success-check block after the submit click.  Returns the waits that
`wait.until` was actually invoked on, and the exception if one was raised.
Looking up `sc["selector"]` for the text condition raises `KeyError` when the
key is absent — before any `wait.until` call for that condition. -/
def successPhase (env : Env) (sc : Option SuccessCheck) :
    List WaitCond × Option PyErr :=
  if !scTruthy sc then ([], none)
  else
    match sc with
    | Option.none => ([], none)
    | Option.some c =>
        let stage1 : List WaitCond × Option PyErr :=
          match c.selector with
          | Option.some s =>
              if s != "" then
                if env.waitOk (WaitCond.visible s) then ([WaitCond.visible s], none)
                else ([WaitCond.visible s], some PyErr.timeoutExc)
              else ([], none)
          | Option.none => ([], none)
        match stage1 with
        | (ws, some e) => (ws, some e)
        | (ws, none) =>
            match c.text_contains with
            | Option.some t =>
                if t != "" then
                  match c.selector with
                  | Option.some s =>
                      if env.waitOk (WaitCond.textPresent s t) then
                        (ws ++ [WaitCond.textPresent s t], none)
                      else (ws ++ [WaitCond.textPresent s t], some PyErr.timeoutExc)
                  | Option.none => (ws, some (PyErr.keyErr "selector"))
                else (ws, none)
            | Option.none => (ws, none)

/-- Result of the guarded `try` block of one row: the polling waits actually
issued, and the exception that escaped it, if any. -/
structure AttemptResult where
  waits : List WaitCond
  result : Option PyErr
deriving DecidableEq, Repr

/-- The `try` block of one row: navigate, fill every field, then (unless
`dry_run`) click submit and run the success check. -/
def attemptRow (env : Env) (cfg : Mapping) (dryRun : Bool)
    (row : String → Cell) : AttemptResult :=
  match env.navErr with
  | some e => ⟨[], some e⟩
  | none =>
      match fillLoop env row cfg.fields with
      | some e => ⟨[], some e⟩
      | none =>
          if dryRun then ⟨[], none⟩
          else
            match cfg.submit_selector with
            | Option.none => ⟨[], some (PyErr.keyErr "submit_selector")⟩
            | Option.some sub =>
                if !env.findOk sub then ⟨[], some PyErr.noSuchElem⟩
                else
                  let r := successPhase env cfg.success_check
                  ⟨r.1, r.2⟩

/-- One line of the outcome log. -/
structure OutcomeRecord where
  row : Nat
  status : String
  message : String
deriving DecidableEq, Repr

/-- The resume set: row numbers of records with status `success` in the prior
log, collected only when `--resume` is given and the output file exists. -/
def processedSet (resume outExists : Bool) (prior : List OutcomeRecord) :
    List Nat :=
  if resume && outExists then
    (prior.filter (fun r => r.status == "success")).map (fun r => r.row)
  else []

/-- The body of the run loop for one row: the resume skip, validation, then
the guarded attempt.  Returns the record written for the row and whether
`driver.get` was invoked (`true` exactly on the attempted branch).
`row_dict` maps NaN cells to `None` before validation and fill. -/
def processRow (start idx : Nat) (processed : List Nat)
    (fm : String → String → Bool) (env : Env) (cfg : Mapping) (dryRun : Bool)
    (row : String → Cell) : OutcomeRecord × Bool :=
  let rowNo := start + idx
  if rowNo ∈ processed then (⟨rowNo, "success", "skipped (resume)"⟩, false)
  else
    let rowD := fun c => denan (row c)
    match validate_row fm rowD cfg.fields with
    | some err => (⟨rowNo, "failed", err⟩, false)
    | none =>
        match (attemptRow env cfg dryRun rowD).result with
        | none => (⟨rowNo, "success", ""⟩, true)
        | some e => (⟨rowNo, "failed", errMsg e⟩, true)

/-- `df.iloc[start-1 : end]` / `df.iloc[start-1 :]` on the source rows
(`start` is the 1-based inclusive start, `end` the 1-based inclusive end). -/
def sliceRows (start : Nat) (stop : Option Nat) (rows : List α) : List α :=
  match stop with
  | Option.some e => (rows.take e).drop (start - 1)
  | Option.none => rows.drop (start - 1)

/-- Row numbering of the loop `for idx, row in df.reset_index(drop=True)`:
the row at zero-based position `i` of the (sliced and filtered) sequence is
paired with `start + i`. -/
def numberRows (start : Nat) : List α → List (Nat × α)
  | [] => []
  | r :: rest => (start, r) :: numberRows (start + 1) rest

/-- One line of the results file. -/
inductive LogLine where
  | header
  | entry (r : OutcomeRecord)
deriving DecidableEq, Repr

/-- Whether a log line is the CSV header. -/
def isHeader : LogLine → Bool
  | LogLine.header => true
  | LogLine.entry _ => false

/-- Contents of the output file after a run: `write_header = not
args.out.exists()`; the file is opened in append mode, the header is written
only when the file did not exist, then one record per processed row. -/
def runLog (outExists : Bool) (prior : List LogLine)
    (records : List OutcomeRecord) : List LogLine :=
  (if outExists then prior else [LogLine.header]) ++ records.map LogLine.entry


/-! ## Shared fixtures and helper lemmas -/

/-- A full-match oracle that accepts every pattern/string pair. -/
def fmTrue : String → String → Bool := fun _ _ => true

/-- A full-match oracle that rejects every pattern/string pair. -/
def fmFalse : String → String → Bool := fun _ _ => false

/-- A browser oracle where navigation, lookup, selection and every wait
succeed, and every checkbox starts unchecked. -/
def envAllOk : Env :=
  ⟨Option.none, fun _ => true, fun _ => false, fun _ _ => true, fun _ => true⟩

theorem isEmptyish_denan (c : Cell) : isEmptyish (denan c) = isEmptyish c := by
  cases c <;> rfl

theorem validate_row_append_of_passes (fm : String → String → Bool)
    (row : String → Cell) (pre rest : List (String × FieldRule))
    (hpre : ∀ p ∈ pre, fieldResult fm row p = Option.none) :
    validate_row fm row (pre ++ rest) = validate_row fm row rest := by
  induction pre with
  | nil => rfl
  | cons f fs ih =>
      have hf : fieldResult fm row f = Option.none := hpre f (by simp)
      have hfs : ∀ p ∈ fs, fieldResult fm row p = Option.none :=
        fun p hp => hpre p (by simp [hp])
      simp [validate_row, hf, ih hfs]

theorem checkValidators_append_of_passes (fm : String → String → Bool)
    (col : String) (val : Cell) (vs1 rest : List Validator)
    (h1 : ∀ u ∈ vs1, checkValidator fm col val u = Option.none) :
    checkValidators fm col val (vs1 ++ rest) = checkValidators fm col val rest := by
  induction vs1 with
  | nil => rfl
  | cons u us ih =>
      have hu : checkValidator fm col val u = Option.none := h1 u (by simp)
      have hus : ∀ w ∈ us, checkValidator fm col val w = Option.none :=
        fun w hw => h1 w (by simp [hw])
      simp [checkValidators, hu, ih hus]

theorem numberRows_take {α : Type} (s k : Nat) (rows : List α) :
    (numberRows s rows).take k = numberRows s (rows.take k) := by
  induction rows generalizing s k with
  | nil => simp [numberRows]
  | cons r rest ih =>
      cases k with
      | zero => simp [numberRows]
      | succ k => simp [numberRows, List.take_succ_cons, ih]

theorem numberRows_drop {α : Type} (s k : Nat) (rows : List α) :
    (numberRows s rows).drop k = numberRows (s + k) (rows.drop k) := by
  induction rows generalizing s k with
  | nil => simp [numberRows]
  | cons r rest ih =>
      cases k with
      | zero => simp [numberRows]
      | succ k =>
          have harith : s + 1 + k = s + (k + 1) := by omega
          simp [numberRows, List.drop_succ_cons, ih, harith]

theorem countP_isHeader_map_entry (records : List OutcomeRecord) :
    (records.map LogLine.entry).countP isHeader = 0 := by
  induction records with
  | nil => rfl
  | cons r rs ih => simp [List.countP_cons, isHeader, ih]

theorem mem_processedSet (n : Nat) (prior : List OutcomeRecord) :
    n ∈ processedSet true true prior ↔
      ∃ r ∈ prior, r.status = "success" ∧ r.row = n := by
  simp only [processedSet, Bool.and_self, if_pos, List.mem_map, List.mem_filter,
    beq_iff_eq]
  constructor
  · rintro ⟨r, ⟨hr, hs⟩, hn⟩
    exact ⟨r, hr, hs, hn⟩
  · rintro ⟨r, hr, hs, hn⟩
    exact ⟨r, ⟨hr, hs⟩, hn⟩

/-! ## Claims -/

/-- C1 (counterexample): the row number assigned for logging and resume
correlation is NOT stable under row-filtering.  With `start = 1` and source
rows `["a", "b"]`, the filter keeping only `"b"` drops an earlier row and the
surviving row `"b"` is numbered `1`, while without the filter it is numbered
`2` (its 1-based position in the original source).  This refutes the claim
that applying a filter that drops earlier rows does not change the row number
assigned to a surviving row. -/
theorem C1_counterexample :
    numberRows 1 (List.filter (fun s => s == "b") (sliceRows 1 Option.none ["a", "b"]))
      = [(1, "b")]
    ∧ numberRows 1 (sliceRows 1 Option.none ["a", "b"]) = [(1, "a"), (2, "b")] :=
  ⟨rfl, rfl⟩

/-- C1 (amended): the row number is `start + zero-based position in the
filtered sequence`.  Under row-range slicing alone (no filter) this is stable:
the numbered slice is exactly the corresponding contiguous run of the fully
numbered original source, so every surviving row keeps its 1-based original
position; row-filtering, by contrast, renumbers surviving rows (see the
counterexample). -/
theorem C1_rowNumbering {α : Type} (start e : Nat) (rows : List α)
    (h : 1 ≤ start) :
    numberRows start (sliceRows start (Option.some e) rows)
      = ((numberRows 1 rows).take e).drop (start - 1)
    ∧ numberRows start (sliceRows start Option.none rows)
      = (numberRows 1 rows).drop (start - 1) := by
  have harith : 1 + (start - 1) = start := by omega
  constructor
  · rw [numberRows_take, numberRows_drop, harith]
    rfl
  · rw [numberRows_drop, harith]
    rfl

/-- C1 (witness): the slicing-stability statement evaluated at `start = 2`,
`end = 3`, four source rows. -/
theorem C1_rowNumbering_witness :
    1 ≤ 2
    ∧ (numberRows 2 (sliceRows 2 (Option.some 3) ["a", "b", "c", "d"])
        = ((numberRows 1 ["a", "b", "c", "d"]).take 3).drop (2 - 1)
      ∧ numberRows 2 (sliceRows 2 Option.none ["a", "b", "c", "d"])
        = (numberRows 1 ["a", "b", "c", "d"]).drop (2 - 1)) :=
  ⟨by decide, C1_rowNumbering 2 3 ["a", "b", "c", "d"] (by decide)⟩

/-- C2 (counterexample): an empty cell CAN produce a validator rejection.  A
non-required column whose cell is the empty string, carrying an enum
validator with values `["US"]`, is rejected with the generated enum message —
the empty-string cell is run through the enum validator because its guard
only tests `val is not None`, not emptiness. -/
theorem C2_counterexample :
    validate_row fmTrue (fun _ => Cell.str "")
        [("country", ⟨"#c", "select", false, Option.none,
            Option.some [Validator.enumV ["US"] Option.none]⟩)]
      = Option.some "country must be one of [\x27US\x27]" :=
  rfl

/-- C2 (amended): a cell that is Python `None` (absent or null) is never run
through any validator; a non-`None` cell whose stringification is empty is
skipped by regex validators but IS evaluated by enum validators, producing
the enum rejection exactly when the empty string is not among the allowed
values. -/
theorem C2_validatorGuards (fm : String → String → Bool) (col : String)
    (vd : Validator) (pat : String) (msg : Option String) (vals : List String) :
    checkValidator fm col Cell.none vd = Option.none
    ∧ checkValidator fm col (Cell.str "") (Validator.regexV pat msg) = Option.none
    ∧ checkValidator fm col (Cell.str "") (Validator.enumV vals msg)
      = (if vals.contains "" then Option.none
         else Option.some (msg.getD (col ++ " must be one of " ++ pyListRepr vals))) := by
  refine ⟨?_, ?_, ?_⟩
  · cases vd <;> simp [checkValidator, isNoneCell]
  · simp [checkValidator, isNoneCell, pyStrAll]
  · simp only [checkValidator, isNoneCell, pyStrAll, Bool.not_false, Bool.true_and,
      if_true]

/-- C3 (counterexample): constructing a `FieldRule` with the unknown kind
`"bogus"` does not fail at config-load time — the dataclass stores the value
unchanged — and the rejection only happens at use time, when `set_field`
raises `ValueError("Unsupported field type: bogus")`. -/
theorem C3_counterexample :
    fieldRuleOfConfig "#x" (Option.some "bogus") Option.none Option.none Option.none
      = ⟨"#x", "bogus", false, Option.none, Option.none⟩
    ∧ set_field
        (fieldRuleOfConfig "#x" (Option.some "bogus") Option.none Option.none Option.none)
        false Cell.none
      = Except.error "Unsupported field type: bogus" :=
  ⟨rfl, rfl⟩

/-- C3 (amended): `FieldRule` construction performs no kind validation: any
kind string is accepted (stored unchanged), a missing kind defaults to
`"input"` (the text kind) and a missing `required` to `false`; a rule whose
kind is not one of the three known values is rejected only at use time, when
`set_field` fails with `ValueError("Unsupported field type: <kind>")`. -/
theorem C3_construction (sel t : String) (req : Option Bool) (d : Option String)
    (vds : Option (List Validator)) (checked : Bool) (v : Cell)
    (ht : ¬(t = "input" ∨ t = "select" ∨ t = "checkbox")) :
    (fieldRuleOfConfig sel (Option.some t) req d vds).type = t
    ∧ (fieldRuleOfConfig sel Option.none req d vds).type = "input"
    ∧ (fieldRuleOfConfig sel Option.none Option.none d vds).required = false
    ∧ set_field (fieldRuleOfConfig sel (Option.some t) req d vds) checked v
      = Except.error ("Unsupported field type: " ++ t) := by
  push_neg at ht
  obtain ⟨h1, h2, h3⟩ := ht
  refine ⟨rfl, rfl, rfl, ?_⟩
  simp [set_field, fieldRuleOfConfig, h1, h2, h3]

/-- C3 (witness): the amended statement evaluated at kind `"bogus"`. -/
theorem C3_construction_witness :
    ¬("bogus" = "input" ∨ "bogus" = "select" ∨ "bogus" = "checkbox")
    ∧ ((fieldRuleOfConfig "#f" (Option.some "bogus") Option.none Option.none
          Option.none).type = "bogus"
      ∧ (fieldRuleOfConfig "#f" Option.none Option.none Option.none
          Option.none).type = "input"
      ∧ (fieldRuleOfConfig "#f" Option.none Option.none Option.none
          Option.none).required = false
      ∧ set_field (fieldRuleOfConfig "#f" (Option.some "bogus") Option.none
            Option.none Option.none) true Cell.nan
        = Except.error ("Unsupported field type: " ++ "bogus")) :=
  ⟨by decide,
   C3_construction "#f" "bogus" Option.none Option.none Option.none true Cell.nan
     (by decide)⟩

/-- C4: a row with a required field whose default is null and whose cell is
empty (absent column, NaN marker, or empty string) — reached with no earlier
field failing — is rejected by validation with exactly
`"Missing required field: <column>"`, irrespective of that field\x27s own
validators and of all subsequent fields (short-circuit), the row is logged
`failed`, and `driver.get` is never invoked for it (the second component
`false` means no navigation). -/
theorem C4_missingRequired (fm : String → String → Bool) (env : Env)
    (cfg : Mapping) (dryRun : Bool) (start idx : Nat) (processed : List Nat)
    (row : String → Cell) (pre post : List (String × FieldRule)) (col : String)
    (rule : FieldRule)
    (hf : cfg.fields = pre ++ (col, rule) :: post)
    (hreq : rule.required = true) (hd : rule.default = Option.none)
    (he : isEmptyish (row col) = true)
    (hpre : ∀ p ∈ pre, fieldResult fm (fun c => denan (row c)) p = Option.none)
    (hnp : ¬(start + idx) ∈ processed) :
    processRow start idx processed fm env cfg dryRun row
      = (⟨start + idx, "failed", "Missing required field: " ++ col⟩, false) := by
  have hed : isEmptyish (denan (row col)) = true := by
    rw [isEmptyish_denan]
    exact he
  have hval : validate_row fm (fun c => denan (row c)) cfg.fields
      = Option.some ("Missing required field: " ++ col) := by
    rw [hf, validate_row_append_of_passes fm _ pre _ hpre]
    simp [validate_row, fieldResult, hed, hreq, hd]
  simp [processRow, hnp, hval]

/-- C4 (witness): one required `email` field with no default, every cell
`None`: the row is logged `failed` with the exact message and without
navigation. -/
theorem C4_missingRequired_witness :
    (⟨"#e", "input", true, Option.none, Option.none⟩ : FieldRule).required = true
    ∧ isEmptyish ((fun _ => Cell.none) "email") = true
    ∧ processRow 1 0 [] fmTrue envAllOk
        ⟨"http://x", Option.none, Option.none, Option.some "#s", Option.none,
          [("email", ⟨"#e", "input", true, Option.none, Option.none⟩)]⟩
        false (fun _ => Cell.none)
      = (⟨1, "failed", "Missing required field: " ++ "email"⟩, false) :=
  ⟨rfl, rfl,
   C4_missingRequired fmTrue envAllOk
     ⟨"http://x", Option.none, Option.none, Option.some "#s", Option.none,
       [("email", ⟨"#e", "input", true, Option.none, Option.none⟩)]⟩
     false 1 0 [] (fun _ => Cell.none) [] [] "email"
     ⟨"#e", "input", true, Option.none, Option.none⟩
     rfl rfl rfl rfl (by simp) (by simp)⟩

/-- C5: with resume mode enabled and the output file existing, a row whose
number was previously logged with status `success` is immediately logged
`success` with message `"skipped (resume)"` and without navigation — the
outcome is a constant, independent of the row\x27s cells, the field rules, the
full-match oracle and the browser, so neither validation nor any form
interaction can influence it; a row all of whose prior records are
non-`success` (e.g. only `failed`) is processed exactly as on a fresh run
(retried). -/
theorem C5_resume (start idx : Nat) (prior : List OutcomeRecord)
    (fm : String → String → Bool) (env : Env) (cfg : Mapping) (dryRun : Bool)
    (row : String → Cell) :
    ((∃ r ∈ prior, r.status = "success" ∧ r.row = start + idx) →
      processRow start idx (processedSet true true prior) fm env cfg dryRun row
        = (⟨start + idx, "success", "skipped (resume)"⟩, false))
    ∧ ((∀ r ∈ prior, r.row = start + idx → r.status ≠ "success") →
      processRow start idx (processedSet true true prior) fm env cfg dryRun row
        = processRow start idx [] fm env cfg dryRun row) := by
  constructor
  · intro hex
    have hm : (start + idx) ∈ processedSet true true prior :=
      (mem_processedSet _ _).mpr hex
    simp [processRow, hm]
  · intro hall
    have hm : ¬(start + idx) ∈ processedSet true true prior := by
      rw [mem_processedSet]
      rintro ⟨r, hr, hs, hrow⟩
      exact hall r hr hrow hs
    have hm2 : ¬(start + idx) ∈ ([] : List Nat) := by simp
    simp [processRow, hm, hm2]

/-- C5 (witness): a prior log where row 7 is `success` makes the rerun log
row 7 as `success`/`"skipped (resume)"` without navigation; a prior log where
row 7 is only `failed` leaves the row processed as on a fresh run. -/
theorem C5_resume_witness :
    (∃ r ∈ [(⟨7, "success", ""⟩ : OutcomeRecord)],
        r.status = "success" ∧ r.row = 7 + 0)
    ∧ processRow 7 0 (processedSet true true [⟨7, "success", ""⟩]) fmTrue envAllOk
        ⟨"http://x", Option.none, Option.none, Option.some "#s", Option.none, []⟩
        false (fun _ => Cell.none)
      = (⟨7 + 0, "success", "skipped (resume)"⟩, false)
    ∧ processRow 7 0 (processedSet true true [⟨7, "failed", "boom"⟩]) fmTrue envAllOk
        ⟨"http://x", Option.none, Option.none, Option.some "#s", Option.none, []⟩
        false (fun _ => Cell.none)
      = processRow 7 0 [] fmTrue envAllOk
          ⟨"http://x", Option.none, Option.none, Option.some "#s", Option.none, []⟩
          false (fun _ => Cell.none) :=
  ⟨by decide,
   (C5_resume 7 0 [⟨7, "success", ""⟩] fmTrue envAllOk
       ⟨"http://x", Option.none, Option.none, Option.some "#s", Option.none, []⟩
       false (fun _ => Cell.none)).1 (by decide),
   (C5_resume 7 0 [⟨7, "failed", "boom"⟩] fmTrue envAllOk
       ⟨"http://x", Option.none, Option.none, Option.some "#s", Option.none, []⟩
       false (fun _ => Cell.none)).2 (by decide)⟩

/-- C7: within a field\x27s ordered validator list, the first failing
validator determines the rejection reason: with every validator before it
passing, the result is its message, unchanged by the arbitrary validators
after it (`vs2`) and by all subsequent fields (`post`); in particular a
non-empty cell failing a regex validator is rejected with the regex message
even when an enum validator listed right after it would accept the value. -/
theorem C7_failFast (fm : String → String → Bool) (row : String → Cell)
    (col : String) (rule : FieldRule) (vs1 vs2 : List Validator) (v : Validator)
    (m : String) (post : List (String × FieldRule))
    (hvl : rule.validators = Option.some (vs1 ++ v :: vs2))
    (hnr : (isEmptyish (row col) && rule.required && rule.default.isNone) = false)
    (h1 : ∀ u ∈ vs1, checkValidator fm col (row col) u = Option.none)
    (hv : checkValidator fm col (row col) v = Option.some m) :
    checkValidators fm col (row col) (vs1 ++ v :: vs2) = Option.some m
    ∧ validate_row fm row ((col, rule) :: post) = Option.some m
    ∧ (∀ pat vals s msg1 msg2, s ≠ "" → fm pat s = false →
        checkValidators fm col (Cell.str s)
          (Validator.regexV pat msg1 :: Validator.enumV vals msg2 :: vs2)
        = Option.some (msg1.getD ("Invalid value for " ++ col))) := by
  have hcv : checkValidators fm col (row col) (vs1 ++ v :: vs2) = Option.some m := by
    rw [checkValidators_append_of_passes fm col _ vs1 _ h1]
    simp [checkValidators, hv]
  refine ⟨hcv, ?_, ?_⟩
  · simp [validate_row, fieldResult, hnr, hvl, hcv]
  · intro pat vals s msg1 msg2 hs hfm
    simp [checkValidators, checkValidator, isNoneCell, pyStrAll, hs, hfm]

/-- C7 (witness): cell `"bad"` under `[regex, enum ["bad"]]` where the regex
fails and the enum would accept: the regex message wins, on the lone field
and on the validator chain. -/
theorem C7_failFast_witness :
    checkValidator fmFalse "country" ((fun _ => Cell.str "bad") "country")
        (Validator.regexV "p" Option.none)
      = Option.some "Invalid value for country"
    ∧ checkValidators fmFalse "country" ((fun _ => Cell.str "bad") "country")
        ([] ++ Validator.regexV "p" Option.none
          :: [Validator.enumV ["bad"] Option.none])
      = Option.some "Invalid value for country"
    ∧ validate_row fmFalse (fun _ => Cell.str "bad")
        [("country", ⟨"#c", "select", false, Option.none,
            Option.some ([] ++ Validator.regexV "p" Option.none
              :: [Validator.enumV ["bad"] Option.none])⟩)]
      = Option.some "Invalid value for country"
    ∧ checkValidators fmFalse "country" (Cell.str "bad")
        (Validator.regexV "p" Option.none
          :: Validator.enumV ["bad"] Option.none
          :: [Validator.enumV ["bad"] Option.none])
      = Option.some (Option.none.getD ("Invalid value for " ++ "country")) :=
  ⟨rfl,
   (C7_failFast fmFalse (fun _ => Cell.str "bad") "country"
      ⟨"#c", "select", false, Option.none,
        Option.some ([] ++ Validator.regexV "p" Option.none
          :: [Validator.enumV ["bad"] Option.none])⟩
      [] [Validator.enumV ["bad"] Option.none] (Validator.regexV "p" Option.none)
      "Invalid value for country" [] rfl rfl (by simp) rfl).1,
   (C7_failFast fmFalse (fun _ => Cell.str "bad") "country"
      ⟨"#c", "select", false, Option.none,
        Option.some ([] ++ Validator.regexV "p" Option.none
          :: [Validator.enumV ["bad"] Option.none])⟩
      [] [Validator.enumV ["bad"] Option.none] (Validator.regexV "p" Option.none)
      "Invalid value for country" [] rfl rfl (by simp) rfl).2.1,
   (C7_failFast fmFalse (fun _ => Cell.str "bad") "country"
      ⟨"#c", "select", false, Option.none,
        Option.some ([] ++ Validator.regexV "p" Option.none
          :: [Validator.enumV ["bad"] Option.none])⟩
      [] [Validator.enumV ["bad"] Option.none] (Validator.regexV "p" Option.none)
      "Invalid value for country" [] rfl rfl (by simp) rfl).2.2
     "p" ["bad"] "bad" Option.none Option.none (by decide) rfl⟩

/-- C8: setting a checkbox is idempotent.  On a rule of kind `checkbox`,
`set_field` clicks exactly when the current checked state differs from the
truthy-coercion of the value (a correctly-set checkbox is never clicked);
after any resulting action the checked state equals the coerced value, and a
second application of the same value performs no click. -/
theorem C8_checkboxIdempotent (rule : FieldRule) (checked : Bool) (v : Cell)
    (h : rule.type = "checkbox") :
    set_field rule checked v
      = Except.ok (if checked == coerce_truthy v then FieldAction.noClick
                   else FieldAction.clickToggle)
    ∧ (checked = coerce_truthy v →
        set_field rule checked v = Except.ok FieldAction.noClick)
    ∧ (∀ a, set_field rule checked v = Except.ok a →
        nextChecked checked a = coerce_truthy v
        ∧ set_field rule (nextChecked checked a) v
          = Except.ok FieldAction.noClick) := by
  have hs : ∀ c : Bool, set_field rule c v
      = Except.ok (if c == coerce_truthy v then FieldAction.noClick
                   else FieldAction.clickToggle) := by
    intro c
    simp [set_field, h]
  refine ⟨hs checked, ?_, ?_⟩
  · intro he
    rw [hs checked, he]
    simp
  · intro a ha
    rw [hs checked] at ha
    cases hc : (checked == coerce_truthy v) with
    | true =>
        rw [hc] at ha
        simp only [if_true, Except.ok.injEq] at ha
        subst ha
        have hce : checked = coerce_truthy v := by
          exact beq_iff_eq.mp hc
        constructor
        · simpa [nextChecked] using hce
        · rw [hs]
          simp [nextChecked, ← hce, hc]
    | false =>
        rw [hc] at ha
        rw [if_neg (by simp)] at ha
        have ha2 : FieldAction.clickToggle = a := Except.ok.inj ha
        subst ha2
        have hne : checked ≠ coerce_truthy v := by
          intro he
          rw [he] at hc
          simp at hc
        have hflip : (!checked) = coerce_truthy v := by
          cases hb : coerce_truthy v <;> cases checked <;> simp_all
        constructor
        · simpa [nextChecked] using hflip
        · rw [hs]
          simp [nextChecked, hflip]

/-- C8 (witness): an unchecked checkbox set to `"yes"` is toggled once to
checked, and a second `set_field` with the same value performs no click. -/
theorem C8_checkboxIdempotent_witness :
    (⟨"#cb", "checkbox", false, Option.none, Option.none⟩ : FieldRule).type
      = "checkbox"
    ∧ set_field ⟨"#cb", "checkbox", false, Option.none, Option.none⟩ false
        (Cell.str "yes")
      = Except.ok FieldAction.clickToggle
    ∧ nextChecked false FieldAction.clickToggle = coerce_truthy (Cell.str "yes")
    ∧ set_field ⟨"#cb", "checkbox", false, Option.none, Option.none⟩
        (nextChecked false FieldAction.clickToggle) (Cell.str "yes")
      = Except.ok FieldAction.noClick :=
  ⟨rfl, by decide,
   ((C8_checkboxIdempotent ⟨"#cb", "checkbox", false, Option.none, Option.none⟩
       false (Cell.str "yes") rfl).2.2 FieldAction.clickToggle (by decide)).1,
   ((C8_checkboxIdempotent ⟨"#cb", "checkbox", false, Option.none, Option.none⟩
       false (Cell.str "yes") rfl).2.2 FieldAction.clickToggle (by decide)).2⟩

/-- C9: when `success_check` has a non-empty `text_contains` but no
`selector` key, a non-dry-run row that validated and filled fine reaches the
success check, where looking up the missing `selector` key raises `KeyError`:
no polling wait is ever issued for the text condition (the issued-wait list
is empty) and the row is logged `failed` with the stringified error
`\x27selector\x27` — after navigation had already occurred (second component
`true`), i.e. the bad configuration was not rejected before the run. -/
theorem C9_missingSelectorKey (start idx : Nat) (fm : String → String → Bool)
    (env : Env) (cfg : Mapping) (row : String → Cell) (t sub : String)
    (hsc : cfg.success_check = Option.some ⟨Option.none, Option.some t⟩)
    (ht : t ≠ "")
    (hval : validate_row fm (fun c => denan (row c)) cfg.fields = Option.none)
    (hnav : env.navErr = Option.none)
    (hfill : fillLoop env (fun c => denan (row c)) cfg.fields = Option.none)
    (hsub : cfg.submit_selector = Option.some sub)
    (hfind : env.findOk sub = true) :
    processRow start idx [] fm env cfg false row
      = (⟨start + idx, "failed", "\x27selector\x27"⟩, true)
    ∧ (attemptRow env cfg false (fun c => denan (row c))).waits = [] := by
  have hsp : successPhase env cfg.success_check
      = ([], Option.some (PyErr.keyErr "selector")) := by
    rw [hsc]
    simp [successPhase, scTruthy, ht]
  have hat : attemptRow env cfg false (fun c => denan (row c))
      = ⟨[], Option.some (PyErr.keyErr "selector")⟩ := by
    simp [attemptRow, hnav, hfill, hsub, hfind, hsp]
  constructor
  · simp [processRow, hval, hat, errMsg]
  · rw [hat]

/-- C9 (witness): a mapping whose `success_check` is
`{text_contains: "Thank you"}`, one well-formed `input` field, all browser
operations succeeding: the row is logged `failed` with message `\x27selector\x27`
after navigation, and no wait was issued. -/
theorem C9_missingSelectorKey_witness :
    (⟨"http://x", Option.none, Option.none, Option.some "#submit",
        Option.some ⟨Option.none, Option.some "Thank you"⟩,
        [("name", ⟨"#n", "input", false, Option.none, Option.none⟩)]⟩
      : Mapping).success_check
      = Option.some ⟨Option.none, Option.some "Thank you"⟩
    ∧ (processRow 1 0 [] fmTrue envAllOk
        ⟨"http://x", Option.none, Option.none, Option.some "#submit",
          Option.some ⟨Option.none, Option.some "Thank you"⟩,
          [("name", ⟨"#n", "input", false, Option.none, Option.none⟩)]⟩
        false (fun _ => Cell.str "x")
      = (⟨1 + 0, "failed", "\x27selector\x27"⟩, true)
    ∧ (attemptRow envAllOk
        ⟨"http://x", Option.none, Option.none, Option.some "#submit",
          Option.some ⟨Option.none, Option.some "Thank you"⟩,
          [("name", ⟨"#n", "input", false, Option.none, Option.none⟩)]⟩
        false (fun c => denan ((fun _ => Cell.str "x") c))).waits = []) :=
  ⟨rfl,
   C9_missingSelectorKey 1 0 fmTrue envAllOk
     ⟨"http://x", Option.none, Option.none, Option.some "#submit",
       Option.some ⟨Option.none, Option.some "Thank you"⟩,
       [("name", ⟨"#n", "input", false, Option.none, Option.none⟩)]⟩
     (fun _ => Cell.str "x") "Thank you" "#submit"
     rfl (by decide) rfl rfl rfl rfl rfl⟩

/-- C10: the outcome log\x27s header line is written only when the output file
does not exist at startup; on an existing file the records of the run are
appended verbatim after the untouched prior content, a record line is never
the header line, and the number of header lines does not grow. -/
theorem C10_headerAppend (prior : List LogLine) (records : List OutcomeRecord) :
    runLog true prior records = prior ++ records.map LogLine.entry
    ∧ runLog false prior records = LogLine.header :: records.map LogLine.entry
    ∧ (runLog true prior records).countP isHeader = prior.countP isHeader := by
  refine ⟨rfl, rfl, ?_⟩
  show (prior ++ records.map LogLine.entry).countP isHeader = prior.countP isHeader
  rw [List.countP_append, countP_isHeader_map_entry, Nat.add_zero]

end Dea
